import Mathlib

/-!
# Verification of the retail ETL pipeline

A shallow embedding of the ETL pipeline (`src/etl/extract.py`,
`src/etl/transform.py`, `src/etl/load.py`, `src/etl/pipeline.py`) and
proofs of its specified properties.

Modelling conventions:
* A pandas `DataFrame` of raw products is a `List RawRecord`.  A field of a
  raw record is `Option (Option String)`: the outer `Option` distinguishes
  "key absent from this record" (`none`) from "key present" (`some _`), the
  inner one "explicit null" (`some none`) from an actual value.  A column
  exists in the DataFrame when at least one record carries the key (the
  union-of-keys rule pandas uses when building a frame from dicts); a cell
  of an existing column is null both for an absent key and an explicit
  null, which is what `Option.join` (`cell`) computes.
* Wall-clock time (`datetime.now()`) is a `Nat` parameter `now`.
* The warehouse (BigQuery) is external; its state is a `BQState` and each
  success or failure of each remote call is injected through a `LoadEnv`, since
  the network and service are outside the program.  The row count returned
  by the verification query is likewise an environment value
  (`countResult`): the warehouse answers it, not the program.
* Python exceptions become `Except` / `Option` error values; a `try/except`
  that swallows its exception becomes a total function.
-/

namespace RetailETL

/-- One product as returned by the Open Food Facts API (`extract.py`
requests exactly these fields).  Each field is `none` when the key is
absent from the record, `some none` when present but null. -/
structure RawRecord where
  code : Option (Option String)
  product_name : Option (Option String)
  categories : Option (Option String)
  quantity : Option (Option String)
  stores : Option (Option String)
  countries : Option (Option String)
  nutriscore_grade : Option (Option String)
  last_modified_t : Option (Option String)
  deriving DecidableEq

/-- The value of a DataFrame cell: absent key and explicit null both read
as null (`none`). -/
def cell (x : Option (Option String)) : Option String :=
  x.join

/-- Whether a column exists in the DataFrame built from `df`: pandas takes
the union of the keys of the records. -/
def hasCol (f : RawRecord → Option (Option String)) (df : List RawRecord) : Bool :=
  df.any fun r => (f r).isSome

/-- Behaviour of `pandas.Series.str.title` on one string: the first alphabetic character
of every run of alphabetic characters is upper-cased, the rest lower-cased. -/
def titleCaseAux : Bool → List Char → List Char
  | _, [] => []
  | prevAlpha, c :: cs =>
    (if c.isAlpha then (if prevAlpha then c.toLower else c.toUpper) else c)
      :: titleCaseAux c.isAlpha cs

/-- Title-casing as `pandas.Series.str.title` does it. -/
def titleCase (s : String) : String :=
  ⟨titleCaseAux false s.data⟩

/-- Behaviour of `pandas.Series.str.strip`: drop leading and trailing whitespace. -/
def strip (s : String) : String :=
  ⟨((s.data.dropWhile Char.isWhitespace).reverse.dropWhile Char.isWhitespace).reverse⟩

/-- Behaviour of `pandas.Series.str.lower`. -/
def lowerStr (s : String) : String :=
  ⟨s.data.map Char.toLower⟩

/-- A cleaned product record as produced by `transform_product_data`
(`transform.py`): the projected columns after dedup, null-defaulting and
normalization, plus the pipeline-added metadata columns. -/
structure CleanRecord where
  code : Option String
  product_name : String
  categories : String
  quantity : String
  stores : String
  countries : String
  nutriscore_grade : String
  last_modified_date : Option (Option Int)
  extracted_at : Nat
  pipeline_version : String
  quality_flag : String
  deriving DecidableEq

/-- Cleaning of a single surviving row (`transform.py` steps 3-7): `fillna`
defaults, text normalization, timestamp parse (`to_numeric` with coercion
of unparsable values to null), metadata stamping and quality flagging.
The two `df.loc` flag assignments run in source order: `missing_name`
first, then `missing_nutriscore`, so the latter overwrites when both
conditions hold.  `hasLm` records whether the `last_modified_t` column
existed (step 5 is guarded by `if "last_modified_t" in df.columns`). -/
def cleanOne (now : Nat) (hasLm : Bool) (r : RawRecord) : CleanRecord :=
  let name := titleCase (strip ((cell r.product_name).getD "Unknown Product"))
  let grade := lowerStr (strip ((cell r.nutriscore_grade).getD "not_rated"))
  let flag0 := "ok"
  let flag1 := if name = "Unknown Product" then "missing_name" else flag0
  let flag2 := if grade = "not_rated" then "missing_nutriscore" else flag1
  { code := cell r.code
    product_name := name
    categories := (cell r.categories).getD "Uncategorized"
    quantity := (cell r.quantity).getD "Unknown"
    stores := (cell r.stores).getD "Unknown Store"
    countries := (cell r.countries).getD "Unknown Country"
    nutriscore_grade := grade
    last_modified_date :=
      if hasLm then some ((cell r.last_modified_t).bind String.toInt?) else none
    extracted_at := now
    pipeline_version := "1.0"
    quality_flag := flag2 }

/-- Embedding of `df.drop_duplicates(subset=["code"])` with the default
`keep="first"`:
keep the first record seen for each `code` cell value (null codes compare
equal to each other, as pandas treats NaN keys). -/
def dedupByCodeAux (seen : List (Option String)) : List RawRecord → List RawRecord
  | [] => []
  | r :: rs =>
    if cell r.code ∈ seen then dedupByCodeAux seen rs
    else r :: dedupByCodeAux (cell r.code :: seen) rs

/-- Structural failure of the transform stage: pandas raises `KeyError`
when a column named by `drop_duplicates(subset=...)` or read by a
`df[...]` access does not exist in the frame. -/
inductive TransformError where
  | missingColumn (col : String)
  deriving DecidableEq

/-- Embedding of `transform_product_data` (`transform.py`).  Empty input short-circuits
unchanged.  Step 2 reads the `code` column (KeyError when absent from the
whole batch), step 3 reads each of the six fixed columns in source order
(KeyError when absent from the whole batch); otherwise the output is the
cleaning of the first-seen record per `code`.  Column existence is decided
on the original frame: dropping rows never removes a column. -/
def transform_product_data (now : Nat) (df : List RawRecord) :
    Except TransformError (List CleanRecord) :=
  if df.isEmpty then .ok []
  else if hasCol (fun r => r.code) df = false then
    .error (.missingColumn "code")
  else if hasCol (fun r => r.product_name) df = false then
    .error (.missingColumn "product_name")
  else if hasCol (fun r => r.categories) df = false then
    .error (.missingColumn "categories")
  else if hasCol (fun r => r.stores) df = false then
    .error (.missingColumn "stores")
  else if hasCol (fun r => r.countries) df = false then
    .error (.missingColumn "countries")
  else if hasCol (fun r => r.nutriscore_grade) df = false then
    .error (.missingColumn "nutriscore_grade")
  else if hasCol (fun r => r.quantity) df = false then
    .error (.missingColumn "quantity")
  else
    .ok ((dedupByCodeAux [] df).map
      (cleanOne now (hasCol (fun r => r.last_modified_t) df)))

/-- One row of the `pipeline_audit_log` table (`log_pipeline_run` in
`load.py` builds exactly these columns). -/
structure AuditEntry where
  run_timestamp : Nat
  status : String
  rows_loaded : Nat
  error_message : Option String
  pipeline_version : String
  deriving DecidableEq

/-- The warehouse state the Loader and AuditLogger touch: the dataset, the
staging and production tables (`none` = table absent) and the append-only
audit table. -/
structure BQState where
  datasetExists : Bool
  staging : Option (List CleanRecord)
  production : Option (List CleanRecord)
  audit : List AuditEntry
  deriving DecidableEq

/-- Failure of one of the remote calls the Loader makes, in the order the calls
are made in `load_to_bigquery`. -/
inductive LoadError where
  | connectFailed
  | stagingLoadFailed
  | swapFailed
  | countQueryFailed
  deriving DecidableEq

/-- Observable output of step 4 of the Loader.  `verifiedLog n` is the
`"Verified: n rows in production table"` line the code prints.
`mismatch expected actual` is modelled from the spec: the
`VerificationMismatch` signal §4.3 describes for a count that differs from
the batch size; it is part of the event vocabulary so that the sentence of the spec
can be stated, and the embedded code is checked against it. -/
inductive LoadEvent where
  | verifiedLog (count : Nat)
  | mismatch (expected actual : Nat)
  deriving DecidableEq

/-- Outcome of the warehouse calls the Loader makes in one invocation.
The warehouse is an external service: whether each call succeeds, and the
row count the count query reports (concurrent writers can make it differ
from what this run just wrote), are environment facts, not program state. -/
structure LoadEnv where
  connectFails : Bool
  createDatasetFails : Bool
  stagingLoadFails : Bool
  swapFails : Bool
  countQueryFails : Bool
  countResult : Nat
  deriving DecidableEq

/-- Result of `load_to_bigquery`: the warehouse state afterwards, the
step-4 events, and the exception propagated to the caller, if any (the
outer `except` re-raises after printing). -/
structure LoadOutcome where
  state : BQState
  events : List LoadEvent
  error : Option LoadError
  deriving DecidableEq

/-- Embedding of `load_to_bigquery` (`load.py`).  Empty frame short-circuits before any
warehouse call.  Step 1 (`create_dataset`) sits in its own `try/except`
whose handler only prints, so its failure never propagates and the load
continues.  Step 2 truncate-writes the whole batch to staging, step 3 is
the single `CREATE OR REPLACE TABLE ... AS SELECT * FROM staging`
statement, step 4 runs the count query and prints each returned row.  Any
exception from steps 2-4 (or the client connection) reaches the outer
handler, which re-raises it. -/
def load_to_bigquery (df : List CleanRecord) (env : LoadEnv) (s : BQState) :
    LoadOutcome :=
  if df.isEmpty then ⟨s, [], none⟩
  else if env.connectFails then ⟨s, [], some .connectFailed⟩
  else
    let s1 := if env.createDatasetFails then s else { s with datasetExists := true }
    if env.stagingLoadFails then ⟨s1, [], some .stagingLoadFailed⟩
    else
      let s2 := { s1 with staging := some df }
      if env.swapFails then ⟨s2, [], some .swapFailed⟩
      else
        let s3 := { s2 with production := s2.staging }
        if env.countQueryFails then ⟨s3, [], some .countQueryFailed⟩
        else ⟨s3, [.verifiedLog env.countResult], none⟩

/-- The raw attempt `log_pipeline_run` makes: connect and append one row to
the audit table.  `auditWriteFails` injects a failure of either remote
call. -/
def auditSinkWrite (auditWriteFails : Bool) (entry : AuditEntry) (s : BQState) :
    Except String BQState :=
  if auditWriteFails then .error "audit sink unavailable"
  else .ok { s with audit := s.audit ++ [entry] }

/-- Embedding of `log_pipeline_run` (`load.py`).  The whole body is wrapped in
`try/except Exception` whose handler only prints a warning, so the
function always returns; the `Bool` in the result records whether the
warning path was taken. -/
def log_pipeline_run (now : Nat) (status : String) (rows_loaded : Nat)
    (errMsg : Option String) (auditWriteFails : Bool) (s : BQState) :
    BQState × Bool :=
  match auditSinkWrite auditWriteFails
      ⟨now, status, rows_loaded, errMsg, "1.0"⟩ s with
  | .ok s2 => (s2, false)
  | .error _ => (s, true)

/-- Failure of the extraction stage (`extract.py`): timeout or HTTP error,
both re-raised to the caller. -/
inductive ExtractError where
  | sourceUnavailable (msg : String)
  deriving DecidableEq

/-- The `str(e)` the pipeline passes to the audit logger for an extraction
failure. -/
def extractErrMsg : ExtractError → String
  | .sourceUnavailable m => m

/-- The `str(e)` for a transform-stage `KeyError`. -/
def transformErrMsg : TransformError → String
  | .missingColumn c => String.append "KeyError: " c

/-- The `str(e)` for a load-stage exception. -/
def loadErrMsg : LoadError → String
  | .connectFailed => "could not connect to BigQuery"
  | .stagingLoadFailed => "staging load job failed"
  | .swapFailed => "production swap query failed"
  | .countQueryFailed => "count query failed"

/-- The arguments of one call the orchestrator makes to
`log_pipeline_run`. -/
structure AuditCall where
  status : String
  rows_loaded : Nat
  error_message : Option String
  deriving DecidableEq

/-- Result of one `run_pipeline` invocation: the warehouse state, the
process exit code (`sys.exit(1)` on the failure path, 0 otherwise) and the
trace of calls made to `log_pipeline_run`. -/
structure RunOutcome where
  state : BQState
  exitCode : Nat
  auditCalls : List AuditCall
  deriving DecidableEq

/-- Embedding of `run_pipeline` (`pipeline.py`).  `rows_loaded` starts at 0 and is
assigned `len(df_clean)` only after `load_to_bigquery` returns, so every
failure path logs 0.  The extraction result is a parameter: it is the
outcome of the network call `extract_product_data` makes. -/
def run_pipeline (now : Nat) (extractResult : Except ExtractError (List RawRecord))
    (lenv : LoadEnv) (auditWriteFails : Bool) (s : BQState) : RunOutcome :=
  match extractResult with
  | .error e =>
    let msg := extractErrMsg e
    let s1 := (log_pipeline_run now "FAILED" 0 (some msg) auditWriteFails s).1
    ⟨s1, 1, [⟨"FAILED", 0, some msg⟩]⟩
  | .ok df_raw =>
    match transform_product_data now df_raw with
    | .error e =>
      let msg := transformErrMsg e
      let s1 := (log_pipeline_run now "FAILED" 0 (some msg) auditWriteFails s).1
      ⟨s1, 1, [⟨"FAILED", 0, some msg⟩]⟩
    | .ok df_clean =>
      let lo := load_to_bigquery df_clean lenv s
      match lo.error with
      | some e =>
        let msg := loadErrMsg e
        let s1 := (log_pipeline_run now "FAILED" 0 (some msg) auditWriteFails lo.state).1
        ⟨s1, 1, [⟨"FAILED", 0, some msg⟩]⟩
      | none =>
        let rows := df_clean.length
        let s1 := (log_pipeline_run now "SUCCESS" rows none auditWriteFails lo.state).1
        ⟨s1, 0, [⟨"SUCCESS", rows, none⟩]⟩

/-! ## Helper lemmas about deduplication and the success shape of the transform -/

/-- Every record the dedup keeps comes from the input. -/
theorem dedupByCodeAux_subset (x : RawRecord) (l : List RawRecord) :
    ∀ seen, x ∈ dedupByCodeAux seen l → x ∈ l := by
  induction l with
  | nil => intro seen h; exact absurd h (List.not_mem_nil x)
  | cons r rs ih =>
    intro seen h
    by_cases hc : cell r.code ∈ seen
    · rw [dedupByCodeAux, if_pos hc] at h
      exact List.mem_cons_of_mem _ (ih seen h)
    · rw [dedupByCodeAux, if_neg hc] at h
      rcases List.mem_cons.mp h with rfl | h2
      · exact List.mem_cons_self _ _
      · exact List.mem_cons_of_mem _ (ih _ h2)

/-- The codes the dedup keeps are pairwise distinct and avoid the
already-seen set. -/
theorem dedupByCodeAux_nodup (l : List RawRecord) :
    ∀ seen, ((dedupByCodeAux seen l).map fun r => cell r.code).Nodup
      ∧ ∀ c ∈ (dedupByCodeAux seen l).map fun r => cell r.code, c ∉ seen := by
  induction l with
  | nil => intro seen; exact ⟨List.nodup_nil, by simp [dedupByCodeAux]⟩
  | cons r rs ih =>
    intro seen
    by_cases hc : cell r.code ∈ seen
    · rw [dedupByCodeAux, if_pos hc]; exact ih seen
    · rw [dedupByCodeAux, if_neg hc]
      obtain ⟨hn, hs⟩ := ih (cell r.code :: seen)
      refine ⟨?_, ?_⟩
      · simp only [List.map_cons, List.nodup_cons]
        exact ⟨fun hmem => (hs _ hmem) (List.mem_cons_self _ _), hn⟩
      · simp only [List.map_cons, List.mem_cons]
        rintro c (rfl | hmem)
        · exact hc
        · exact fun hin => hs c hmem (List.mem_cons_of_mem _ hin)

/-- Searching the deduplicated list for a not-yet-seen code finds exactly
what searching the input finds: the first occurrence survives. -/
theorem find?_dedupByCodeAux (c : Option String) (l : List RawRecord) :
    ∀ seen, c ∉ seen →
      (dedupByCodeAux seen l).find? (fun r => cell r.code == c)
        = l.find? (fun r => cell r.code == c) := by
  induction l with
  | nil => intro seen _; rfl
  | cons r rs ih =>
    intro seen h
    by_cases hc : cell r.code ∈ seen
    · have hne : ¬ ((cell r.code == c) = true) := by
        intro hbeq
        exact h (eq_of_beq hbeq ▸ hc)
      rw [dedupByCodeAux, if_pos hc,
        @List.find?_cons_of_neg _ (fun r => cell r.code == c) r rs hne]
      exact ih seen h
    · rw [dedupByCodeAux, if_neg hc]
      by_cases heq : (cell r.code == c) = true
      · rw [@List.find?_cons_of_pos _ (fun r => cell r.code == c) r
            (dedupByCodeAux (cell r.code :: seen) rs) heq,
          @List.find?_cons_of_pos _ (fun r => cell r.code == c) r rs heq]
      · rw [@List.find?_cons_of_neg _ (fun r => cell r.code == c) r
            (dedupByCodeAux (cell r.code :: seen) rs) heq,
          @List.find?_cons_of_neg _ (fun r => cell r.code == c) r rs heq]
        refine ih _ fun hmem => ?_
        rcases List.mem_cons.mp hmem with h1 | h1
        · exact heq (h1 ▸ beq_self_eq_true c)
        · exact h h1

/-- On success, the output of the transform is exactly the cleaning of the
first-seen record per `code` (and an empty input yields an empty
output). -/
theorem transform_ok_shape (now : Nat) (df : List RawRecord)
    (out : List CleanRecord) (h : transform_product_data now df = .ok out) :
    out = (dedupByCodeAux [] df).map
      (cleanOne now (hasCol (fun r => r.last_modified_t) df)) := by
  unfold transform_product_data at h
  by_cases he : df.isEmpty
  · rw [if_pos he] at h
    rw [List.isEmpty_iff.mp he, ← Except.ok.inj h]
    rfl
  · rw [if_neg he] at h
    repeat' split at h
    all_goals first
      | exact Except.noConfusion h
      | exact (Except.ok.inj h).symm

/-- The cleaning step keeps the `code` cell unchanged. -/
theorem cleanOne_code (now : Nat) (b : Bool) (r : RawRecord) :
    (cleanOne now b r).code = cell r.code := rfl

/-- Worked example batch: two records sharing code `A1` and one with code
`A2` whose name and grade are null. -/
def exRec1 : RawRecord :=
  ⟨some (some "A1"), some (some " apple juice "), some (some "Drinks"), some none,
   some (some "Lidl"), some (some "France"), some (some " B "), none⟩

/-- Second occurrence of code `A1`: must be dropped by the dedup. -/
def exRec2 : RawRecord :=
  ⟨some (some "A1"), some (some "other"), none, none, none, none, none, none⟩

/-- Record with code `A2`, null name and null grade. -/
def exRec3 : RawRecord :=
  ⟨some (some "A2"), some none, none, none, none, none, none, none⟩

/-- The worked example batch. -/
def exDf : List RawRecord := [exRec1, exRec2, exRec3]

/-- The output of the transform on the worked example batch. -/
def exOut : List CleanRecord :=
  (dedupByCodeAux [] exDf).map (cleanOne 7 (hasCol (fun r => r.last_modified_t) exDf))

/-! ## The claims -/

/-- Claim C1: for every input sequence of RawRecords, the output of the
Transformer contains exactly one record per distinct `code` value (the output
codes are pairwise distinct), and for each `code` the retained record is
the cleaning of the first-occurring input record with that code (the
search of the output agrees with the search of the input). -/
theorem C1_dedup_first_wins (now : Nat) (df : List RawRecord)
    (out : List CleanRecord) (h : transform_product_data now df = .ok out) :
    (out.map CleanRecord.code).Nodup ∧
    ∀ c : Option String,
      out.find? (fun o => o.code == c)
        = (df.find? (fun r => cell r.code == c)).map
            (cleanOne now (hasCol (fun r => r.last_modified_t) df)) := by
  rw [transform_ok_shape now df out h]
  constructor
  · rw [List.map_map]
    exact (dedupByCodeAux_nodup df []).1
  · intro c
    rw [List.find?_map]
    have hcomp : ((fun o => o.code == c)
          ∘ cleanOne now (hasCol (fun r => r.last_modified_t) df))
        = fun r => cell r.code == c := rfl
    rw [hcomp, find?_dedupByCodeAux c df [] (List.not_mem_nil c)]

/-- Witness for C1 on the worked example: the duplicated code `A1` is kept
once, as the cleaning of its first occurrence. -/
theorem C1_dedup_first_wins_witness :
    (exOut.map CleanRecord.code).Nodup ∧
    exOut.find? (fun o => o.code == some "A1")
      = (exDf.find? (fun r => cell r.code == some "A1")).map
          (cleanOne 7 (hasCol (fun r => r.last_modified_t) exDf)) :=
  ⟨(C1_dedup_first_wins 7 exDf exOut rfl).1,
   (C1_dedup_first_wins 7 exDf exOut rfl).2 (some "A1")⟩

/-- The documented default for a null product name survives normalization
(strip, then title-case) with its observable casing intact. -/
theorem titleCase_strip_default :
    titleCase (strip "Unknown Product") = "Unknown Product" := by decide

/-- The documented default for a null nutrition grade survives
normalization (strip, then lower-case) with its observable casing
intact. -/
theorem lowerStr_strip_default :
    lowerStr (strip "not_rated") = "not_rated" := by decide

/-- The name column after cleaning, spelled out. -/
theorem cleanOne_product_name (now : Nat) (b : Bool) (r : RawRecord) :
    (cleanOne now b r).product_name
      = titleCase (strip ((cell r.product_name).getD "Unknown Product")) := rfl

/-- The grade column after cleaning, spelled out. -/
theorem cleanOne_grade (now : Nat) (b : Bool) (r : RawRecord) :
    (cleanOne now b r).nutriscore_grade
      = lowerStr (strip ((cell r.nutriscore_grade).getD "not_rated")) := rfl

/-- Claim C2: every record the Transformer outputs is the cleaning of some
input record, and each of the six fixed fields, when its source cell was
null (absent or explicitly null), equals its documented default with the
documented final casing.  The fixed fields of a `CleanRecord` are total
`String`s, so they are non-null by construction. -/
theorem C2_null_defaults (now : Nat) (df : List RawRecord)
    (out : List CleanRecord) (hne : df ≠ [])
    (h : transform_product_data now df = .ok out) :
    ∀ o ∈ out, ∃ r ∈ df,
      o = cleanOne now (hasCol (fun x => x.last_modified_t) df) r ∧
      (cell r.product_name = none → o.product_name = "Unknown Product") ∧
      (cell r.categories = none → o.categories = "Uncategorized") ∧
      (cell r.stores = none → o.stores = "Unknown Store") ∧
      (cell r.countries = none → o.countries = "Unknown Country") ∧
      (cell r.nutriscore_grade = none → o.nutriscore_grade = "not_rated") ∧
      (cell r.quantity = none → o.quantity = "Unknown") := by
  rw [transform_ok_shape now df out h]
  intro o ho
  rcases List.mem_map.mp ho with ⟨r, hr, rfl⟩
  refine ⟨r, dedupByCodeAux_subset r df [] hr, rfl, ?_, ?_, ?_, ?_, ?_, ?_⟩
  · intro hnull
    rw [cleanOne_product_name, hnull, Option.getD_none]
    exact titleCase_strip_default
  · intro hnull
    show (cell r.categories).getD "Uncategorized" = "Uncategorized"
    rw [hnull, Option.getD_none]
  · intro hnull
    show (cell r.stores).getD "Unknown Store" = "Unknown Store"
    rw [hnull, Option.getD_none]
  · intro hnull
    show (cell r.countries).getD "Unknown Country" = "Unknown Country"
    rw [hnull, Option.getD_none]
  · intro hnull
    rw [cleanOne_grade, hnull, Option.getD_none]
    exact lowerStr_strip_default
  · intro hnull
    show (cell r.quantity).getD "Unknown" = "Unknown"
    rw [hnull, Option.getD_none]

/-- Witness for C2 on the worked example: `exRec3` has a null name and a
null grade and its cleaned record carries the documented defaults. -/
theorem C2_null_defaults_witness :
    ∃ r ∈ exDf,
      cleanOne 7 false exRec3 = cleanOne 7 false r ∧
      (cell r.product_name = none →
        (cleanOne 7 false exRec3).product_name = "Unknown Product") ∧
      (cell r.categories = none →
        (cleanOne 7 false exRec3).categories = "Uncategorized") ∧
      (cell r.stores = none →
        (cleanOne 7 false exRec3).stores = "Unknown Store") ∧
      (cell r.countries = none →
        (cleanOne 7 false exRec3).countries = "Unknown Country") ∧
      (cell r.nutriscore_grade = none →
        (cleanOne 7 false exRec3).nutriscore_grade = "not_rated") ∧
      (cell r.quantity = none →
        (cleanOne 7 false exRec3).quantity = "Unknown") :=
  C2_null_defaults 7 exDf exOut (by decide) rfl (cleanOne 7 false exRec3) (by decide)

/-- The quality flag after cleaning: the second `df.loc` assignment wins
when both fire. -/
theorem cleanOne_flag (now : Nat) (b : Bool) (r : RawRecord) :
    (cleanOne now b r).quality_flag
      = if (cleanOne now b r).nutriscore_grade = "not_rated" then "missing_nutriscore"
        else if (cleanOne now b r).product_name = "Unknown Product" then "missing_name"
        else "ok" := rfl

/-- Claim C3: `quality_flag` is `missing_nutriscore` whenever the
nutrition grade equals its default (even when the name is also the
default), `missing_name` only when the name is the default and the grade
is not, and `ok` otherwise. -/
theorem C3_flag_priority (now : Nat) (df : List RawRecord)
    (out : List CleanRecord) (h : transform_product_data now df = .ok out) :
    ∀ o ∈ out,
      (o.nutriscore_grade = "not_rated" → o.quality_flag = "missing_nutriscore") ∧
      (o.nutriscore_grade ≠ "not_rated" → o.product_name = "Unknown Product" →
        o.quality_flag = "missing_name") ∧
      (o.nutriscore_grade ≠ "not_rated" → o.product_name ≠ "Unknown Product" →
        o.quality_flag = "ok") := by
  rw [transform_ok_shape now df out h]
  intro o ho
  rcases List.mem_map.mp ho with ⟨r, _, rfl⟩
  refine ⟨fun hg => ?_, fun hg hn => ?_, fun hg hn => ?_⟩
  · rw [cleanOne_flag, if_pos hg]
  · rw [cleanOne_flag, if_neg hg, if_pos hn]
  · rw [cleanOne_flag, if_neg hg, if_neg hn]

/-- Witness for C3 on the worked example: `exRec3` takes both defaults
and is flagged `missing_nutriscore`, not `missing_name`. -/
theorem C3_flag_priority_witness :
    ((cleanOne 7 false exRec3).nutriscore_grade = "not_rated" →
      (cleanOne 7 false exRec3).quality_flag = "missing_nutriscore") ∧
    ((cleanOne 7 false exRec3).nutriscore_grade ≠ "not_rated" →
      (cleanOne 7 false exRec3).product_name = "Unknown Product" →
      (cleanOne 7 false exRec3).quality_flag = "missing_name") ∧
    ((cleanOne 7 false exRec3).nutriscore_grade ≠ "not_rated" →
      (cleanOne 7 false exRec3).product_name ≠ "Unknown Product" →
      (cleanOne 7 false exRec3).quality_flag = "ok") :=
  C3_flag_priority 7 exDf exOut rfl (cleanOne 7 false exRec3) (by decide)

/-- A batch of one record carrying only a `code` key: every other fixed
column is absent from the whole frame. -/
def onlyCodeRec : RawRecord :=
  ⟨some (some "123"), none, none, none, none, none, none, none⟩

/-- A batch of one record with no `code` key at all. -/
def noCodeRec : RawRecord :=
  ⟨none, some (some "x"), none, none, none, none, none, none⟩

/-- Claim C4 (refuted by the code): on a batch whose records never carry a
`product_name` key, the transform fails with the `KeyError` of the
unguarded `df["product_name"].fillna(...)` access, although the claim says
absent fixed fields are defaulted and only a missing `code` column may
fail (which the second conjunct shows does fail as described). -/
theorem C4_absent_column_failure :
    transform_product_data 0 [onlyCodeRec]
      = .error (.missingColumn "product_name") ∧
    transform_product_data 0 [noCodeRec]
      = .error (.missingColumn "code") :=
  ⟨rfl, rfl⟩

/-- A nonempty list is not `isEmpty`. -/
theorem isEmpty_false_of_ne_nil {l : List CleanRecord} (h : l ≠ []) :
    l.isEmpty = false := by
  cases l with
  | nil => exact absurd rfl h
  | cons a as => rfl

/-- A cleaned record used in the loader examples. -/
def recA : CleanRecord :=
  ⟨some "A1", "Old Product", "Uncategorized", "Unknown", "Unknown Store",
   "Unknown Country", "a", none, 1, "1.0", "ok"⟩

/-- A second cleaned record, distinct from `recA`. -/
def recB : CleanRecord :=
  ⟨some "B1", "New Product", "Drinks", "1 L", "Lidl",
   "France", "b", none, 2, "1.0", "ok"⟩

/-- A third cleaned record, used to build a batch of three. -/
def recC : CleanRecord :=
  ⟨some "C1", "Third Product", "Snacks", "200 g", "Aldi",
   "Germany", "c", none, 3, "1.0", "ok"⟩

/-- Warehouse state whose production table holds the previous batch
`[recA]`. -/
def sPrev : BQState := ⟨true, some [recA], some [recA], []⟩

/-- Environment in which only the dataset-creation call fails. -/
def envStep1Fails : LoadEnv := ⟨false, true, false, false, false, 1⟩

/-- Counterexample to claim C6 as stated: with the previous batch in
production, a run whose step 1 (dataset creation) fails does not abort —
the load returns no error — and production is replaced by the new batch
rather than retaining its previous contents, because the code catches the
`create_dataset` exception in an inner handler and continues. -/
theorem C6_counterexample :
    envStep1Fails.createDatasetFails = true ∧
    (load_to_bigquery [recB] envStep1Fails sPrev).error = none ∧
    sPrev.production = some [recA] ∧
    (load_to_bigquery [recB] envStep1Fails sPrev).state.production = some [recB] ∧
    [recB] ≠ [recA] := by
  refine ⟨rfl, rfl, rfl, rfl, by decide⟩

/-- Claim C6 as amended: a failure of the staging write or of the atomic
swap (steps 2-3) aborts the load with an error and leaves production at
its previous contents; a step-1 (dataset creation) failure is swallowed
and the load continues; and production is only ever either its previous
contents or exactly the new batch — never a partial mix — because the
single create-or-replace in step 3 is the only operation that touches
it. -/
theorem C6_amended_staged_swap (df : List CleanRecord) (env : LoadEnv)
    (s : BQState) (hne : df ≠ []) :
    ((env.stagingLoadFails = true ∨ env.swapFails = true) →
      (load_to_bigquery df env s).error.isSome = true ∧
      (load_to_bigquery df env s).state.production = s.production) ∧
    ((load_to_bigquery df env s).state.production = s.production ∨
      (load_to_bigquery df env s).state.production = some df) := by
  have hemp : df.isEmpty = false := isEmpty_false_of_ne_nil hne
  unfold load_to_bigquery
  rw [if_neg (by simp [hemp])]
  by_cases h1 : env.connectFails <;>
    by_cases h2 : env.createDatasetFails <;>
      by_cases h3 : env.stagingLoadFails <;>
        by_cases h4 : env.swapFails <;>
          by_cases h5 : env.countQueryFails <;>
            simp [h1, h2, h3, h4, h5]

/-- Environment in which only the staging write fails. -/
def envStagingFails : LoadEnv := ⟨false, false, true, false, false, 1⟩

/-- Witness for the amended C6: a failing staging write aborts the load
and production keeps its previous contents. -/
theorem C6_amended_staged_swap_witness :
    (load_to_bigquery [recB] envStagingFails sPrev).error.isSome = true ∧
    (load_to_bigquery [recB] envStagingFails sPrev).state.production
      = sPrev.production :=
  (C6_amended_staged_swap [recB] envStagingFails sPrev (by decide)).1 (Or.inl rfl)

/-- Claim C7: an empty batch makes the Loader a no-op — it performs no
warehouse call, changes nothing and reports no error — and a run whose
clean batch is empty succeeds, logging `SUCCESS` with `rows_loaded = 0`
and leaving the staging and production tables untouched. -/
theorem C7_empty_batch_noop (now : Nat) (env lenv : LoadEnv) (af : Bool)
    (s : BQState) :
    load_to_bigquery [] env s = ⟨s, [], none⟩ ∧
    (run_pipeline now (Except.ok []) lenv af s).exitCode = 0 ∧
    (run_pipeline now (Except.ok []) lenv af s).auditCalls
      = [⟨"SUCCESS", 0, none⟩] ∧
    (run_pipeline now (Except.ok []) lenv af s).state.staging = s.staging ∧
    (run_pipeline now (Except.ok []) lenv af s).state.production = s.production := by
  refine ⟨rfl, ?_⟩
  cases af <;>
    simp [run_pipeline, transform_product_data, load_to_bigquery,
      log_pipeline_run, auditSinkWrite]

/-- Batch of three records for the verification example. -/
def batch3 : List CleanRecord := [recA, recB, recC]

/-- Environment in which every call succeeds and the warehouse answers the
count query with 5 — different from the batch size 3 (the spec treats the
warehouse as an external capability; concurrent writers make such an
answer possible). -/
def envCount5 : LoadEnv := ⟨false, false, false, false, false, 5⟩

/-- Warehouse state before the verification example. -/
def sCount : BQState := ⟨true, none, some [recA], []⟩

/-- Counterexample to claim C8 as stated: loading a batch of 3 while the
warehouse reports 5 rows produces no `VerificationMismatch` signal at all
— the loader only prints the count it read — so no comparison against the
batch size happens. -/
theorem C8_counterexample :
    batch3.length = 3 ∧ envCount5.countResult = 5 ∧
    (load_to_bigquery batch3 envCount5 sCount).error = none ∧
    (load_to_bigquery batch3 envCount5 sCount).events
      = [LoadEvent.verifiedLog 5] ∧
    LoadEvent.mismatch 3 5 ∉ (load_to_bigquery batch3 envCount5 sCount).events := by
  refine ⟨rfl, rfl, rfl, rfl, by decide⟩

/-- Claim C8 as amended: after the swap the Loader reads back the
production row count and logs it, without comparing it to the batch size;
it returns without error whatever count the warehouse reports, and no
mismatch signal is ever emitted on any input. -/
theorem C8_amended_no_comparison (df : List CleanRecord) (env : LoadEnv)
    (s : BQState) (hne : df ≠ []) (h1 : env.connectFails = false)
    (h2 : env.stagingLoadFails = false) (h3 : env.swapFails = false)
    (h4 : env.countQueryFails = false) :
    (load_to_bigquery df env s).events = [LoadEvent.verifiedLog env.countResult] ∧
    (load_to_bigquery df env s).error = none ∧
    ∀ (df2 : List CleanRecord) (env2 : LoadEnv) (s2 : BQState) (x y : Nat),
      LoadEvent.mismatch x y ∉ (load_to_bigquery df2 env2 s2).events := by
  have hemp : df.isEmpty = false := isEmpty_false_of_ne_nil hne
  refine ⟨?_, ?_, ?_⟩
  · unfold load_to_bigquery
    rw [if_neg (by simp [hemp])]
    by_cases h5 : env.createDatasetFails <;> simp [h1, h2, h3, h4, h5]
  · unfold load_to_bigquery
    rw [if_neg (by simp [hemp])]
    by_cases h5 : env.createDatasetFails <;> simp [h1, h2, h3, h4, h5]
  · intro df2 env2 s2 x y
    unfold load_to_bigquery
    by_cases g0 : df2.isEmpty <;>
      by_cases g1 : env2.connectFails <;>
        by_cases g2 : env2.createDatasetFails <;>
          by_cases g3 : env2.stagingLoadFails <;>
            by_cases g4 : env2.swapFails <;>
              by_cases g5 : env2.countQueryFails <;>
                simp [g0, g1, g2, g3, g4, g5]

/-- Witness for the amended C8: the concrete mismatching run logs the
count 5 it read and returns without error. -/
theorem C8_amended_no_comparison_witness :
    (load_to_bigquery batch3 envCount5 sCount).events
      = [LoadEvent.verifiedLog envCount5.countResult] ∧
    (load_to_bigquery batch3 envCount5 sCount).error = none ∧
    LoadEvent.mismatch 5 3 ∉ (load_to_bigquery batch3 envCount5 sCount).events :=
  ⟨(C8_amended_no_comparison batch3 envCount5 sCount (by decide) rfl rfl rfl rfl).1,
   (C8_amended_no_comparison batch3 envCount5 sCount (by decide) rfl rfl rfl rfl).2.1,
   (C8_amended_no_comparison batch3 envCount5 sCount (by decide) rfl rfl rfl rfl).2.2
     batch3 envCount5 sCount 5 3⟩

/-- The Loader never writes the audit table. -/
theorem load_to_bigquery_audit (df : List CleanRecord) (env : LoadEnv)
    (s : BQState) : (load_to_bigquery df env s).state.audit = s.audit := by
  unfold load_to_bigquery
  by_cases g0 : df.isEmpty <;>
    by_cases g1 : env.connectFails <;>
      by_cases g2 : env.createDatasetFails <;>
        by_cases g3 : env.stagingLoadFails <;>
          by_cases g4 : env.swapFails <;>
            by_cases g5 : env.countQueryFails <;>
              simp [g0, g1, g2, g3, g4, g5]

/-- Claim C5: every run makes exactly one audit-log call — `SUCCESS` with
the final row count when all stages succeed, `FAILED` with the captured
error message when any stage raises — the process then terminates with
exit code 1 on failure and 0 on success, and when the audit sink works the
audit table grows by exactly that one entry. -/
theorem C5_single_audit (now : Nat)
    (ext : Except ExtractError (List RawRecord)) (lenv : LoadEnv)
    (af : Bool) (s : BQState) :
    (run_pipeline now ext lenv af s).auditCalls.length = 1 ∧
    ((run_pipeline now ext lenv af s).exitCode = 0 ∨
      (run_pipeline now ext lenv af s).exitCode = 1) ∧
    (∀ e, ext = Except.error e →
      (run_pipeline now ext lenv af s).exitCode = 1 ∧
      (run_pipeline now ext lenv af s).auditCalls
        = [⟨"FAILED", 0, some (extractErrMsg e)⟩]) ∧
    (∀ raw e, ext = Except.ok raw →
      transform_product_data now raw = Except.error e →
      (run_pipeline now ext lenv af s).exitCode = 1 ∧
      (run_pipeline now ext lenv af s).auditCalls
        = [⟨"FAILED", 0, some (transformErrMsg e)⟩]) ∧
    (∀ raw clean e, ext = Except.ok raw →
      transform_product_data now raw = Except.ok clean →
      (load_to_bigquery clean lenv s).error = some e →
      (run_pipeline now ext lenv af s).exitCode = 1 ∧
      (run_pipeline now ext lenv af s).auditCalls
        = [⟨"FAILED", 0, some (loadErrMsg e)⟩]) ∧
    (∀ raw clean, ext = Except.ok raw →
      transform_product_data now raw = Except.ok clean →
      (load_to_bigquery clean lenv s).error = none →
      (run_pipeline now ext lenv af s).exitCode = 0 ∧
      (run_pipeline now ext lenv af s).auditCalls
        = [⟨"SUCCESS", clean.length, none⟩]) ∧
    ((run_pipeline now ext lenv af s).exitCode = 1 →
      ∃ msg, (run_pipeline now ext lenv af s).auditCalls
        = [⟨"FAILED", 0, some msg⟩]) ∧
    (af = false →
      (run_pipeline now ext lenv af s).state.audit
        = s.audit ++ (run_pipeline now ext lenv af s).auditCalls.map
            (fun c => ⟨now, c.status, c.rows_loaded, c.error_message, "1.0"⟩)) := by
  rcases ext with e | raw
  · have hrp : run_pipeline now (Except.error e) lenv af s
        = ⟨(log_pipeline_run now "FAILED" 0 (some (extractErrMsg e)) af s).1, 1,
           [⟨"FAILED", 0, some (extractErrMsg e)⟩]⟩ := rfl
    refine ⟨by rw [hrp]; rfl, Or.inr (by rw [hrp]), ?_, ?_, ?_, ?_, ?_, ?_⟩
    · intro e' he'
      injection he' with h
      subst h
      exact ⟨by rw [hrp], by rw [hrp]⟩
    · intro raw e' hcontra
      exact Except.noConfusion hcontra
    · intro raw clean e' hcontra
      exact Except.noConfusion hcontra
    · intro raw clean hcontra
      exact Except.noConfusion hcontra
    · intro _
      exact ⟨extractErrMsg e, by rw [hrp]⟩
    · intro haf
      subst haf
      rw [hrp]
      simp [log_pipeline_run, auditSinkWrite]
  · cases htr : transform_product_data now raw with
    | error e =>
      have hrp : run_pipeline now (Except.ok raw) lenv af s
          = ⟨(log_pipeline_run now "FAILED" 0 (some (transformErrMsg e)) af s).1, 1,
             [⟨"FAILED", 0, some (transformErrMsg e)⟩]⟩ := by
        simp only [run_pipeline, htr]
      refine ⟨by rw [hrp]; rfl, Or.inr (by rw [hrp]), ?_, ?_, ?_, ?_, ?_, ?_⟩
      · intro e' hcontra
        exact Except.noConfusion hcontra
      · intro raw' e' h1 h2
        injection h1 with h1
        subst h1
        rw [htr] at h2
        injection h2 with h2
        subst h2
        exact ⟨by rw [hrp], by rw [hrp]⟩
      · intro raw' clean' e' h1 h2
        injection h1 with h1
        subst h1
        rw [htr] at h2
        exact Except.noConfusion h2
      · intro raw' clean' h1 h2
        injection h1 with h1
        subst h1
        rw [htr] at h2
        exact Except.noConfusion h2
      · intro _
        exact ⟨transformErrMsg e, by rw [hrp]⟩
      · intro haf
        subst haf
        rw [hrp]
        simp [log_pipeline_run, auditSinkWrite]
    | ok clean =>
      cases hl : (load_to_bigquery clean lenv s).error with
      | some e =>
        have hrp : run_pipeline now (Except.ok raw) lenv af s
            = ⟨(log_pipeline_run now "FAILED" 0 (some (loadErrMsg e)) af
                  (load_to_bigquery clean lenv s).state).1, 1,
               [⟨"FAILED", 0, some (loadErrMsg e)⟩]⟩ := by
          simp only [run_pipeline, htr, hl]
        refine ⟨by rw [hrp]; rfl, Or.inr (by rw [hrp]), ?_, ?_, ?_, ?_, ?_, ?_⟩
        · intro e' hcontra
          exact Except.noConfusion hcontra
        · intro raw' e' h1 h2
          injection h1 with h1
          subst h1
          rw [htr] at h2
          exact Except.noConfusion h2
        · intro raw' clean' e' h1 h2 h3
          injection h1 with h1
          subst h1
          rw [htr] at h2
          injection h2 with h2
          subst h2
          rw [hl] at h3
          injection h3 with h3
          subst h3
          exact ⟨by rw [hrp], by rw [hrp]⟩
        · intro raw' clean' h1 h2 h3
          injection h1 with h1
          subst h1
          rw [htr] at h2
          injection h2 with h2
          subst h2
          rw [hl] at h3
          exact Option.noConfusion h3
        · intro _
          exact ⟨loadErrMsg e, by rw [hrp]⟩
        · intro haf
          subst haf
          rw [hrp]
          simp [log_pipeline_run, auditSinkWrite, load_to_bigquery_audit]
      | none =>
        have hrp : run_pipeline now (Except.ok raw) lenv af s
            = ⟨(log_pipeline_run now "SUCCESS" clean.length none af
                  (load_to_bigquery clean lenv s).state).1, 0,
               [⟨"SUCCESS", clean.length, none⟩]⟩ := by
          simp only [run_pipeline, htr, hl]
        refine ⟨by rw [hrp]; rfl, Or.inl (by rw [hrp]), ?_, ?_, ?_, ?_, ?_, ?_⟩
        · intro e' hcontra
          exact Except.noConfusion hcontra
        · intro raw' e' h1 h2
          injection h1 with h1
          subst h1
          rw [htr] at h2
          exact Except.noConfusion h2
        · intro raw' clean' e' h1 h2 h3
          injection h1 with h1
          subst h1
          rw [htr] at h2
          injection h2 with h2
          subst h2
          rw [hl] at h3
          exact Option.noConfusion h3
        · intro raw' clean' h1 h2 h3
          injection h1 with h1
          subst h1
          rw [htr] at h2
          injection h2 with h2
          subst h2
          exact ⟨by rw [hrp], by rw [hrp]⟩
        · intro hcontra
          rw [hrp] at hcontra
          have h01 : (0 : Nat) ≠ 1 := by decide
          exact absurd hcontra h01
        · intro haf
          subst haf
          rw [hrp]
          simp [log_pipeline_run, auditSinkWrite, load_to_bigquery_audit]

/-- Load environment in which every warehouse call succeeds. -/
def lenv0 : LoadEnv := ⟨false, false, false, false, false, 0⟩

/-- An empty warehouse. -/
def s0 : BQState := ⟨false, none, none, []⟩

/-- Witness for C5: a fully successful run over an empty source makes
exactly one audit call, `SUCCESS` with row count 0, and appends exactly
that entry to the audit table. -/
theorem C5_single_audit_witness :
    (run_pipeline 0 (Except.ok []) lenv0 false s0).auditCalls.length = 1 ∧
    (run_pipeline 0 (Except.ok []) lenv0 false s0).exitCode = 0 ∧
    (run_pipeline 0 (Except.ok []) lenv0 false s0).auditCalls
      = [⟨"SUCCESS", 0, none⟩] ∧
    (run_pipeline 0 (Except.ok []) lenv0 false s0).state.audit
      = s0.audit ++ (run_pipeline 0 (Except.ok []) lenv0 false s0).auditCalls.map
          (fun c => ⟨0, c.status, c.rows_loaded, c.error_message, "1.0"⟩) :=
  ⟨(C5_single_audit 0 (Except.ok []) lenv0 false s0).1,
   ((C5_single_audit 0 (Except.ok []) lenv0 false s0).2.2.2.2.2.1 [] [] rfl rfl rfl).1,
   ((C5_single_audit 0 (Except.ok []) lenv0 false s0).2.2.2.2.2.1 [] [] rfl rfl rfl).2,
   (C5_single_audit 0 (Except.ok []) lenv0 false s0).2.2.2.2.2.2.2 rfl⟩

/-- Claim C9: the audit logger is best-effort — under a failing sink it
returns normally with the state untouched (the exception is caught), under
a working sink it appends exactly one row — and a failing sink changes
neither the exit code, nor the audit calls made, nor the production or
staging tables of any run, successful or failed. -/
theorem C9_audit_best_effort (now : Nat)
    (ext : Except ExtractError (List RawRecord)) (lenv : LoadEnv)
    (s : BQState) :
    (∀ (status : String) (rows : Nat) (errMsg : Option String) (s2 : BQState),
      log_pipeline_run now status rows errMsg true s2 = (s2, true)) ∧
    (∀ (status : String) (rows : Nat) (errMsg : Option String) (s2 : BQState),
      (log_pipeline_run now status rows errMsg false s2).1.audit
        = s2.audit ++ [⟨now, status, rows, errMsg, "1.0"⟩]) ∧
    (run_pipeline now ext lenv true s).exitCode
      = (run_pipeline now ext lenv false s).exitCode ∧
    (run_pipeline now ext lenv true s).auditCalls
      = (run_pipeline now ext lenv false s).auditCalls ∧
    (run_pipeline now ext lenv true s).state.production
      = (run_pipeline now ext lenv false s).state.production ∧
    (run_pipeline now ext lenv true s).state.staging
      = (run_pipeline now ext lenv false s).state.staging := by
  refine ⟨fun _ _ _ _ => rfl, fun _ _ _ _ => rfl, ?_⟩
  rcases ext with e | raw
  · simp [run_pipeline, log_pipeline_run, auditSinkWrite]
  · cases htr : transform_product_data now raw with
    | error e =>
      simp [run_pipeline, htr, log_pipeline_run, auditSinkWrite]
    | ok clean =>
      cases hl : (load_to_bigquery clean lenv s).error with
      | some e =>
        simp [run_pipeline, htr, hl, log_pipeline_run, auditSinkWrite]
      | none =>
        simp [run_pipeline, htr, hl, log_pipeline_run, auditSinkWrite]

/-- Claim C10: every `FAILED` audit call of any run reports
`rows_loaded = 0`, because the orchestrator assigns the row count only
after the Loader returns. -/
theorem C10_failed_rows_zero (now : Nat)
    (ext : Except ExtractError (List RawRecord)) (lenv : LoadEnv)
    (af : Bool) (s : BQState) (c : AuditCall)
    (hc : c ∈ (run_pipeline now ext lenv af s).auditCalls)
    (hst : c.status = "FAILED") : c.rows_loaded = 0 := by
  rcases ext with e | raw
  · simp only [run_pipeline] at hc
    rw [List.mem_singleton] at hc
    subst hc
    rfl
  · cases htr : transform_product_data now raw with
    | error e =>
      simp only [run_pipeline, htr] at hc
      rw [List.mem_singleton] at hc
      subst hc
      rfl
    | ok clean =>
      cases hl : (load_to_bigquery clean lenv s).error with
      | some e =>
        simp only [run_pipeline, htr, hl] at hc
        rw [List.mem_singleton] at hc
        subst hc
        rfl
      | none =>
        simp only [run_pipeline, htr, hl] at hc
        rw [List.mem_singleton] at hc
        subst hc
        have hsf : ("SUCCESS" : String) ≠ "FAILED" := by decide
        exact absurd hst hsf

/-- Witness for C10: a run whose extraction times out logs `FAILED` with
`rows_loaded = 0`. -/
theorem C10_failed_rows_zero_witness :
    (AuditCall.mk "FAILED" 0 (some "timed out")).rows_loaded = 0 :=
  C10_failed_rows_zero 0 (Except.error (.sourceUnavailable "timed out"))
    lenv0 false s0 ⟨"FAILED", 0, some "timed out"⟩ (by decide) rfl

end RetailETL
